import Mathlib

/-!
# Verification of the MineRL client session layer (`minerl/env/core.py`)

This file shallowly embeds the session/protocol state machine of
`MineRLEnv` (file `minerl/env/core.py`): the `init` template processing,
the observation codec `_process_observation`, the action codec
`_process_action`, the `step` turn-token exchange, the `_peek_obs`
initial peek, the `reset` quit-drain loop and the `resync` recovery
poll.  Network replies and wall-clock time, which the Python code
obtains from blocking socket reads and `time.time()`, are passed in as
explicit inputs; random `space.sample()` draws are carried as data on
the space description.  Python exceptions are modelled with an
explicit error type in `Except`.
-/

namespace MineRL

/-- Python exception outcomes observable from `core.py`.
`unboundLocal` models `UnboundLocalError` (a `return` reading a local
variable that was never assigned on the taken path); `valueError`
models `ValueError` (raised by `str.index` on a missing substring and
by `ndarray.reshape` on a size mismatch); `assertionError` models a
failed `assert` (the spec's `InvalidActionError`); `typeError` models
`TypeError` (e.g. `dict *= 0`); `keyError` models a missing dict key;
`indexError` models list indexing out of range; `envException`,
`missionInitException` and `notImplementedError` model the
correspondingly named Python exception classes. -/
inductive PyErr where
  | valueError
  | envException
  | missionInitException
  | notImplementedError
  | assertionError
  | typeError
  | keyError
  | indexError
  | attributeError
  | unboundLocal
  deriving DecidableEq, Repr

/-- A Python value as it appears in observation `info` payloads and in
`space.sample()` results: an int/float scalar (`num`, arithmetic kept
on `Int` — no claim touches float rounding), a string, a Python list,
a flat numpy array (`ndarr`), or a dict (assoc list, insertion
ordered, keys unique as in a Python dict). -/
inductive ObsVal where
  | num (n : Int)
  | str (s : String)
  | list (l : List ObsVal)
  | ndarr (l : List Int)
  | dict (entries : List (String × ObsVal))
  deriving Repr

/-- Python dict lookup `d[k]` / `k in d` on an assoc list. -/
def alookup (k : String) : List (String × ObsVal) → Option ObsVal
  | [] => none
  | (k', v) :: rest => if k' = k then some v else alookup k rest

/-- Python dict assignment `d[k] = v`: replace in place if present,
append otherwise (insertion order preserved). -/
def aupdate (k : String) (v : ObsVal) : List (String × ObsVal) → List (String × ObsVal)
  | [] => [(k, v)]
  | (k', v') :: rest =>
      if k' = k then (k, v) :: rest else (k', v') :: aupdate k v rest

/-- An observation-space entry, as consumed by `_process_observation`.
`dictSpace sample` is a `gym.spaces.Dict` whose `.sample()` call on
this decode returns the dict `sample` (keys = the declared sub-space
keys); `other sample` is any non-`Dict` space whose `.sample()`
returns `sample`.  The sample drawn by `space.sample()` is random in
Python; here the draw is resolved as data carried by the space. -/
inductive ObsKind where
  | dictSpace (sample : List (String × ObsVal))
  | other (sample : ObsVal)
  deriving Repr

/-- `self.observation_space.spaces`: field name to space, insertion
ordered. -/
abbrev ObsSpace := List (String × ObsKind)

/-- An action-space entry as consumed by `_process_action`:
`minerl.env.spaces.Enum` with its declared `values`, or a
`gym.spaces.Box`. -/
inductive ActKind where
  | enum (values : List String)
  | box
  deriving DecidableEq, Repr

/-- An action value supplied by the caller for one field: a Python
int, a string, a numpy array (flattened by the codec), or a plain
Python list (an `Iterable`). -/
inductive ActVal where
  | int (i : Int)
  | str (s : String)
  | ndarr (l : List Int)
  | pylist (l : List Int)
  deriving DecidableEq, Repr

/-- The info payload handed to `_process_observation`: `empty` models
`None` or the empty string (both falsy, parsed to `{}`); `parsed`
models a JSON object already decoded by `json.loads` (JSON parsing
itself is the external `json` library). -/
inductive InfoPayload where
  | empty
  | parsed (entries : List (String × ObsVal))
  deriving Repr

/-- The mutable session state of `MineRLEnv` (the instance attributes
set in `__init__`/`init` that the protocol methods read and write).
The connection handle is `Option Unit`: `some ()` for a connected
socket, `none` for `self.client_socket = None`. -/
structure Session where
  role : Int
  agent_count : Nat
  exp_uid : String
  resets : Nat
  resync_period : Nat
  turn_key : String
  done : Bool
  step_options : Int
  width : Nat
  height : Nat
  depth : Nat
  client_socket : Option Unit
  has_init : Bool
  observation_space : ObsSpace
  action_space : List (String × ActKind)
  deriving Repr

/-- `MAX_WAIT = 60 * 3` (seconds). -/
def MAX_WAIT : Nat := 60 * 3

/-! ## Observation codec: `_process_observation` -/

/-- Lines 202–207: `np.frombuffer(pov, dtype=np.uint8)` reinterprets the
raw bytes; an empty buffer is replaced by `np.zeros((h, w, d))`, a
non-empty one is `reshape`d to `(h, w, d)` (raising `ValueError` when
the element count does not match).  The array is kept flat here; its
declared shape is `h × w × d`, i.e. length `h * w * d`. -/
def povStage (pov : List Int) (h w d : Nat) : Except PyErr (List Int) :=
  if pov.length = 0 then .ok (List.replicate (h * w * d) 0)
  else if pov.length = h * w * d then .ok pov
  else .error .valueError

/-- Python `x *= 0` on a sample value: `int * 0 = 0`, `str * 0 = ""`,
`list * 0 = []`, numpy array zeroed elementwise; `dict *= 0` raises
`TypeError`. -/
def mulZero : ObsVal → Except PyErr ObsVal
  | .num _ => .ok (.num 0)
  | .str _ => .ok (.str "")
  | .list _ => .ok (.list [])
  | .ndarr l => .ok (.ndarr (l.map fun _ => 0))
  | .dict _ => .error .typeError

/-- Lines 247–248: `for k in correction: correction[k] *= 0` — zero
every value of the sampled dict, in key order, propagating the first
`TypeError`. -/
def zeroAll : List (String × ObsVal) → Except PyErr (List (String × ObsVal))
  | [] => .ok []
  | (k, v) :: rest =>
      match mulZero v with
      | .error e => .error e
      | .ok v0 =>
          match zeroAll rest with
          | .error e => .error e
          | .ok rest0 => .ok ((k, v0) :: rest0)

/-- Lines 221–229: one iteration of `for stack in info['inventory']`.
A well-typed stack is a dict with `type` and `quantity` keys:
`inventory_dict[stack['type']] += stack['quantity']`, with `KeyError`
(unknown item type, or non-string `type`) caught and skipped, and
`TypeError` from adding a non-numeric quantity propagating (only
`ValueError`/`KeyError` are caught).  A non-dict stack record leaves
the accumulator unchanged (`'type' in stack` is false), except an int
record on which Python's `in` raises `TypeError`. -/
def stackStep (inv : List (String × ObsVal)) (stack : ObsVal) :
    Except PyErr (List (String × ObsVal)) :=
  match stack with
  | .dict d =>
      match alookup "type" d, alookup "quantity" d with
      | some t, some q =>
          match t with
          | .str tname =>
              match alookup tname inv with
              | none => .ok inv           -- KeyError caught: continue
              | some cur =>
                  match cur, q with
                  | .num c, .num qn => .ok (aupdate tname (.num (c + qn)) inv)
                  | _, _ => .error .typeError
          | _ => .ok inv                  -- non-str key: KeyError caught
      | _, _ => .ok inv                   -- 'type'/'quantity' not both present
  | .num _ => .error .typeError
  | _ => .ok inv

/-- Fold `stackStep` over the inventory list. -/
def stacksFold (inv : List (String × ObsVal)) :
    List ObsVal → Except PyErr (List (String × ObsVal))
  | [] => .ok inv
  | s :: rest =>
      match stackStep inv s with
      | .error e => .error e
      | .ok inv' => stacksFold inv' rest

/-- Lines 215–234: the inventory hot-fix.  When both the observation
space and the info payload declare `inventory`, the backend's list of
`{type, quantity}` records is folded into a dict keyed by every item
type declared in the space, missing types defaulting to 0; otherwise
the info dict passes through unchanged. -/
def inventoryFix (space : ObsSpace) (info : List (String × ObsVal)) :
    Except PyErr (List (String × ObsVal)) :=
  match alookup "inventory" info with
  | none => .ok info
  | some invPayload =>
      match space.lookup "inventory" with
      | none => .ok info
      | some (.other _) => .error .attributeError   -- `.spaces` on a non-Dict space
      | some (.dictSpace sample) =>
          let inv0 : List (String × ObsVal) := sample.map fun kv => (kv.1, .num 0)
          match invPayload with
          | .list stackList =>
              match stacksFold inv0 stackList with
              | .error e => .error e
              | .ok invd => .ok (aupdate "inventory" (.dict invd) info)
          | _ => .error .typeError        -- `for stack in <non-list>` fails

/-- Lines 242–252: the defaulting loop, translated exactly, including
the Python loop-variable capture: in the `gym.spaces.Dict` branch the
inner `for k in correction` loop rebinds `k`, so the subsequent
`info[k] = correction` and `obs_dict[k] = info[k]` run with `k` equal
to the LAST key of the sampled dict (when the sample is non-empty),
not the declared field name.  (`if k is not 'pov'` is modelled as
string inequality, the interned-literal case.) -/
def fieldLoop (info obsd : List (String × ObsVal)) :
    ObsSpace → Except PyErr (List (String × ObsVal))
  | [] => .ok obsd
  | (k, sk) :: rest =>
      if k = "pov" then fieldLoop info obsd rest
      else
        match alookup k info with
        | some v => fieldLoop info (aupdate k v obsd) rest
        | none =>
            match sk with
            | .other sample =>
                let info' := aupdate k sample info
                fieldLoop info' (aupdate k sample obsd) rest
            | .dictSpace sample =>
                match zeroAll sample with
                | .error e => .error e
                | .ok zs =>
                    let k' := ((sample.map Prod.fst).getLast?).getD k
                    let info' := aupdate k' (.dict zs) info
                    fieldLoop info' (aupdate k' (.dict zs) obsd) rest

/-- `_process_observation(self, pov, info)` (lines 198–254): pov byte
reinterpretation and zero-fill, info parse (falsy becomes `{}`), the
inventory hot-fix, then the per-field defaulting loop starting from
`obs_dict = {'pov': pov}`. -/
def process_observation (s : Session) (pov : List Int) (infoIn : InfoPayload) :
    Except PyErr (List (String × ObsVal)) :=
  match povStage pov s.height s.width s.depth with
  | .error e => .error e
  | .ok povArr =>
      let info0 : List (String × ObsVal) :=
        match infoIn with
        | .empty => []
        | .parsed l => l
      match inventoryFix s.observation_space info0 with
      | .error e => .error e
      | .ok info1 => fieldLoop info1 [("pov", .ndarr povArr)] s.observation_space

/-! ## Action codec: `_process_action` -/

/-- Python list indexing `values[i]` with negative-index wraparound;
out of range raises `IndexError`. -/
def pyIndex (l : List String) (i : Int) : Except PyErr String :=
  let j : Int := if i < 0 then i + l.length else i
  if 0 ≤ j ∧ j < l.length then .ok (l.getD j.toNat "") else .error .indexError

/-- Lines 262–283: processing of one action field `act` with value `v`.
`self.action_space.spaces[act]` raises `KeyError` for an undeclared
field.  An `Enum` field takes an int index (replaced by
`values[index]`) or a declared member string (`assert` otherwise);
a `Box` field asserts the value is not a string, flattens a numpy
array, joins any iterable with spaces, and stringifies.  The emitted
line is `"{act} {value}"`. -/
def renderField (spaces : List (String × ActKind)) (act : String) (v : ActVal) :
    Except PyErr String :=
  match spaces.lookup act with
  | none => .error .keyError
  | some (.enum values) =>
      match v with
      | .int i =>
          match pyIndex values i with
          | .error e => .error e
          | .ok sv => .ok (act ++ " " ++ sv)
      | .str sv =>
          if values.contains sv then .ok (act ++ " " ++ sv)
          else .error .assertionError
      | _ => .error .assertionError       -- `assert isinstance(..., str)` fails
  | some .box =>
      match v with
      | .str _ => .error .assertionError  -- `assert not isinstance(subact, str)`
      | .int n => .ok (act ++ " " ++ toString n)
      | .ndarr xs => .ok (act ++ " " ++ String.intercalate " " (xs.map toString))
      | .pylist xs => .ok (act ++ " " ++ String.intercalate " " (xs.map toString))

/-- `_process_action(self, action_in)` (lines 256–285): one line per
supplied field, in the action dict's insertion order, joined with
newlines; the first failed assert/lookup aborts the call. -/
def process_action (spaces : List (String × ActKind))
    (action : List (String × ActVal)) : Except PyErr String :=
  match (action.mapM fun kv => renderField spaces kv.1 kv.2) with
  | .error e => .error e
  | .ok lines => .ok (String.intercalate "\n" lines)

/-! ## `step` -/

/-- The backend's replies consumed by one `step` exchange, in wire
order: the observation byte payload, the `struct.unpack('!dbb', ...)`
triple (`reward` kept on `Int` — its f64 value is passed through
untouched), the info payload (read only when the step options request
info), and the new turn-token string (read only when the step options
are turn-based). -/
structure StepNet where
  obs : List Int
  reward : Int
  doneB : Int
  sent : Int
  info : InfoPayload
  turnKey : String
  deriving Repr

/-- The outcome of one `step` call: the returned triple (observation
dict, reward, done — the trailing `info` return is always `{}`), the
session state after the call, the final value of the local `turn`
variable (initialized `True`; the source computes it but never reads
it afterwards), and the number of framed network messages sent plus
received during the call. -/
structure StepRun where
  result : Except PyErr (List (String × ObsVal) × Int × Bool)
  session : Session
  turn : Bool
  netMsgs : Nat
  deriving Repr

/-- `step(self, action)` (lines 362–409).  `_process_action` runs
before the `done` guard, so its failures propagate with no network
I/O.  When `self.done` is already true the entire exchange is
skipped — but the shared `return out_obs, reward, self.done, {}`
then reads `out_obs`, a local assigned only inside the
`if not self.done` branch, raising `UnboundLocalError`.  Otherwise
the exchange runs: a step message (plus the held turn token when
`step_options < 2`) is sent; the observation, the
`(reward, done, sent)` reply, optionally the info payload and
optionally a new turn token are received; `self.done` is updated from
the reply; the turn-resolution rule of lines 397–403 updates the local
`turn` flag and the held token. -/
def step (s : Session) (action : List (String × ActVal)) (net : StepNet) : StepRun :=
  let withturnkey := s.step_options < 2
  let withinfo := s.step_options = 0 ∨ s.step_options = 2
  match process_action s.action_space action with
  | .error e => { result := .error e, session := s, turn := true, netMsgs := 0 }
  | .ok _malmo_command =>
      if s.done then
        { result := .error .unboundLocal, session := s, turn := true, netMsgs := 0 }
      else
        let sends := if withturnkey then 2 else 1
        let s1 := { s with done := net.doneB = 1 }
        let infoArg : InfoPayload := if withinfo then net.info else .empty
        let recvsBeforeObs := 2 + (if withinfo then 1 else 0)
        match process_observation s1 net.obs infoArg with
        | .error e =>
            { result := .error e, session := s1, turn := true,
              netMsgs := sends + recvsBeforeObs }
        | .ok out_obs =>
            let turn_key := if withturnkey then net.turnKey else ""
            let recvs := recvsBeforeObs + (if withturnkey then 1 else 0)
            if turn_key ≠ "" then
              { result := .ok (out_obs, net.reward, s1.done),
                session := { s1 with turn_key := turn_key },
                turn := if net.sent ≠ 0 then false else true,
                netMsgs := sends + recvs }
            else
              { result := .ok (out_obs, net.reward, s1.done),
                session := s1,
                turn := net.sent = 0,
                netMsgs := sends + recvs }

/-! ## `_peek_obs` -/

/-- The backend's replies to one `<Peek/>` request: observation bytes,
info payload, and the 1-byte done flag. -/
structure PeekNet where
  obs : List Int
  info : InfoPayload
  doneB : Int
  deriving Repr

/-- The outcome of `_peek_obs`: the processed observation (the
returned pair's second component is always `{}`), the session
afterwards, and the number of `<Peek/>` requests sent. -/
structure PeekRun where
  result : Except PyErr (List (String × ObsVal))
  session : Session
  polls : Nat
  deriving Repr

/-- `_peek_obs(self)` (lines 325–346).  `elapsed` is the value of
`time.time() - start_time` at the emptiness check (the time the three
blocking receives took).  When `self.done` holds on entry the peek is
skipped and the final `self._process_observation(obs, info)` reads
the never-assigned local `info` (`UnboundLocalError`).  Otherwise one
peek exchange runs, `self.done` is updated, and an empty observation
payload is checked once against `MAX_WAIT`: past the ceiling the
socket is closed and nulled and `MissionInitException` is raised;
within it the code sleeps 0.1 s and falls through to process the
(empty) observation.  There is no re-polling loop. -/
def peek_obs (s : Session) (net : PeekNet) (elapsed : Nat) : PeekRun :=
  if s.done then
    { result := .error .unboundLocal, session := s, polls := 0 }
  else
    let s1 := { s with done := net.doneB = 1 }
    if net.obs.length = 0 ∧ elapsed > MAX_WAIT then
      { result := .error .missionInitException,
        session := { s1 with client_socket := none }, polls := 1 }
    else
      { result := process_observation s1 net.obs net.info, session := s1, polls := 1 }

/-! ## `reset` and `_quit_episode` -/

/-- An externally visible action of one `reset` call: the
`exit_resync` recovery branch, one `<Quit/>` exchange of
`_quit_episode`, or the `_start_up` mission-init handshake. -/
inductive REvent where
  | exit_resync
  | quit
  | handshake
  deriving DecidableEq, Repr

/-- The outcome of `reset`: the ordered list of events it performed,
an exception, or divergence (the quit-poll loop never observed a
nonzero status and blocks forever). -/
inductive ResetOut where
  | events (l : List REvent)
  | errored (e : PyErr)
  | diverges
  deriving DecidableEq, Repr

/-- Index of the first nonzero 4-byte quit status in the backend's
reply stream. -/
def firstNonzero : List Nat → Option Nat
  | [] => none
  | r :: rest =>
      if r ≠ 0 then some 0 else (firstNonzero rest).map (· + 1)

/-- `reset(self)` (lines 292–307) together with `_quit_episode`
(lines 348–352), over the stream `quitReplies` of 4-byte statuses the
backend returns to successive `<Quit/>` requests.  An uninitialized
session calls `self.init()` with no arguments, a `TypeError` (two
required positional arguments missing).  When the resync period
divides `resets + 1` the `exit_resync` branch runs first and nulls
the socket, so a subsequent `_quit_episode` would call
`send_message(None, ...)` (`AttributeError`).  While `self.done` is
false, `<Quit/>` is sent repeatedly — `self.done` becomes the
`ok != 0` of each reply, with a 0.1 s sleep after each zero status —
and only after a nonzero status does `_start_up` run.  When
`self.done` already holds, `_start_up` runs immediately. -/
def reset (s : Session) (quitReplies : List Nat) : ResetOut :=
  if ¬ s.has_init then .errored .typeError
  else
    let doResync := 0 < s.resync_period ∧ (s.resets + 1) % s.resync_period = 0
    let pre : List REvent := if doResync then [.exit_resync] else []
    let sock : Option Unit := if doResync then none else s.client_socket
    if s.done then .events (pre ++ [.handshake])
    else if sock.isNone then .errored .attributeError
    else
      match firstNonzero quitReplies with
      | some k => .events (pre ++ List.replicate (k + 1) .quit ++ [.handshake])
      | none => .diverges

/-! ## `resync` -/

/-- One `for _ in range(30)` poll loop of `resync` (lines 480–487)
against a single endpoint, starting at attempt `i` with `fuel`
attempts left: `ok` tells whether attempt `i` of `self.status(head)`
succeeds.  Returns whether a success broke the loop, the number of
attempts performed, and the seconds slept (`time.sleep(10)` after
every failed attempt, including the last). -/
def statusPoll (ok : Nat → Bool) : Nat → Nat → Bool × Nat × Nat
  | _, 0 => (false, 0, 0)
  | i, fuel + 1 =>
      if ok i then (true, 1, 0)
      else
        let r := statusPoll ok (i + 1) fuel
        (r.1, r.2.1 + 1, r.2.2 + 10)

/-- `resync(self)` (lines 475–490): poll the head endpoint, then the
non-head endpoint, 30 attempts each; raise `EnvException` unless both
polls succeeded (`success != 2`). -/
def resync (okHead okNode : Nat → Bool) : Except PyErr Unit :=
  let s1 := if (statusPoll okHead 0 30).1 then 1 else 0
  let s2 := if (statusPoll okNode 0 30).1 then 1 else 0
  if s1 + s2 ≠ 2 then .error .envException else .ok ()

/-! ## `init` -/

/-- Substring search on character lists: index of the first position
where `pat` occurs in `s`. -/
def findSub (pat : List Char) : List Char → Option Nat
  | [] => if pat = [] then some 0 else none
  | c :: rest =>
      if pat.isPrefixOf (c :: rest) then some 0
      else (findSub pat rest).map (· + 1)

/-- Python `s.index(pat)` for strings: the first index of `pat`, or
`ValueError` when `pat` does not occur.  (Unlike `s.find`, `index`
never returns `-1`.) -/
def strIndex (s pat : String) : Except PyErr Int :=
  match findSub pat.data s.data with
  | some i => .ok (Int.ofNat i)
  | none => .error .valueError

/-- Python `s.startswith(pat)`: prefix test on the characters. -/
def pyStartsWith (s pat : String) : Bool := pat.data.isPrefixOf s.data

/-- Lines 120–124 of `init`: the mission-marker check on the template
text.  When the text does not start with `<Mission`, `xml.index`
looks the marker up — raising `ValueError` when absent, so the
guarded `raise EnvException` on `i == -1` is unreachable — and the
text is re-sliced from the marker on. -/
def missionMarkerCheck (xml : String) : Except PyErr String :=
  if pyStartsWith xml "<Mission" then .ok xml
  else
    match strIndex xml "<Mission" with
    | .error e => .error e
    | .ok i =>
        if i = -1 then .error .envException
        else .ok (xml.drop i.toNat)

/-- The declared `<VideoProducer>` element of the template: its
`<Width>` and `<Height>` texts (already integer-parsed; `int()`
failures on malformed text are outside the claims) and its
`want_depth` attribute (`none` models an absent attribute, on which
`attrib["want_depth"]` raises `KeyError`). -/
structure VideoProducer where
  width : Nat
  height : Nat
  want_depth : Option String
  deriving Repr

/-- A mission template as `init` consumes it: the raw file text after
`$(MISSIONS_DIR)` substitution, plus the results of the `lxml` tree
queries `init` makes on the parsed document (`etree` parsing is the
external library).  `hasTurnBased` is the `.//TurnBasedCommands`
search; `videoProducers` the `.//VideoProducer` list. -/
structure MissionTemplate where
  raw : String
  hasTurnBased : Bool
  videoProducers : List VideoProducer
  deriving Repr

/-- `init(self, observation_space, action_space, exp_uid=None,
episode=0, action_filter=None, resync=0, step_options=0)`
(lines 95–196), threading the session state through: the mission
marker check; `role = 0`; the experiment id (`genUid` is the fresh
`uuid.uuid4()` draw used when `exp_uid` is `None`); `agent_count = 1`;
`NotImplementedError` when the template declares `TurnBasedCommands`,
otherwise an empty turn key; step options defaulting to 0 when passed
`None`; `done = True`; the resync period and episode counter; the
`assert len(video_producers) == self.agent_count`; frame geometry from
the role's video producer, with depth 4 exactly when `want_depth` is
`"true"` or `"1"`. -/
def init (s : Session) (tmpl : MissionTemplate)
    (observation_space : ObsSpace) (action_space : List (String × ActKind))
    (exp_uid : Option String) (episode : Nat) (resyncArg : Nat)
    (step_options : Option Int) (genUid : String) : Except PyErr Session :=
  match missionMarkerCheck tmpl.raw with
  | .error e => .error e
  | .ok _xml =>
      let role : Int := 0
      let uid := match exp_uid with
        | none => genUid
        | some u => u
      if tmpl.hasTurnBased then .error .notImplementedError
      else
        let opts : Int := match step_options with
          | none => 0            -- `0 if not turn_based else 2`; turn_based is false here
          | some v => v
        if h : tmpl.videoProducers.length = 1 then
          let vp := tmpl.videoProducers.get ⟨0, by simp [h]⟩
          match vp.want_depth with
          | none => .error .keyError
          | some wd =>
              .ok { s with
                role := role
                exp_uid := uid
                observation_space := observation_space
                action_space := action_space
                agent_count := 1
                turn_key := ""
                step_options := opts
                done := true
                resync_period := resyncArg
                resets := episode
                width := vp.width
                height := vp.height
                depth := if wd = "true" ∨ wd = "1" then 4 else 3
                has_init := true }
        else .error .assertionError

/-! ## Helper lemmas -/

theorem alookup_aupdate_ne (k k' : String) (v : ObsVal)
    (l : List (String × ObsVal)) (h : k' ≠ k) :
    alookup k' (aupdate k v l) = alookup k' l := by
  induction l with
  | nil => simp [aupdate, alookup, Ne.symm h]
  | cons kv rest ih =>
      obtain ⟨k0, v0⟩ := kv
      by_cases hk : k0 = k
      · subst hk
        simp [aupdate, alookup, Ne.symm h]
      · simp [aupdate, alookup, hk]
        by_cases hk' : k0 = k'
        · simp [hk']
        · simp [hk', ih]

/-! ## Concrete fixtures -/

/-- A session as it stands after `__init__`/`init`: role 0, one agent,
`done = True`, default step options, a 1×1×1 frame, a connected
socket, a pov-only observation space and an enum+box action space. -/
def baseS : Session :=
  { role := 0, agent_count := 1, exp_uid := "u", resets := 0, resync_period := 0,
    turn_key := "", done := true, step_options := 0, width := 1, height := 1, depth := 1,
    client_socket := some (), has_init := true,
    observation_space := [("pov", .other (.num 0))],
    action_space := [("move", .enum ["none", "forward"]), ("camera", .box)] }

/-- A step-reply bundle (used against a `done` session, where none of
it is ever read off the wire). -/
def stepDoneNet : StepNet :=
  { obs := [0], reward := 3, doneB := 0, sent := 1, info := .empty, turnKey := "tk1" }

/-- Observation space declaring a non-pov `gym.spaces.Dict` field
`stats` with a single sub-key `score` (sampled value 5). -/
def s4 : Session :=
  { baseS with
    done := false
    observation_space := [("pov", .other (.num 0)), ("stats", .dictSpace [("score", .num 5)])] }

/-- Observation space declaring a `gym.spaces.Dict` field `flags`
whose sample contains a nested mapping. -/
def s5 : Session :=
  { baseS with
    done := false
    observation_space := [("pov", .other (.num 0)), ("flags", .dictSpace [("inner", .dict [])])] }

/-- A running (`done = False`) session for the peek scenarios. -/
def peekS : Session := { baseS with done := false }

/-- Backend peek replies with an empty first observation payload. -/
def emptyPeekNet : PeekNet := { obs := [], info := .empty, doneB := 0 }

/-! ## Claims -/

/-- C1: the spec says that while `done` is already true, `step` is a
no-op that performs no network exchange and returns the last known
`(observation, reward, done, info)`.  The code indeed performs no
network exchange, but the shared `return out_obs, reward, self.done,
{}` reads `out_obs`, which is assigned only inside the
`if not self.done` branch, so the call raises `UnboundLocalError`
instead of returning: evaluated here on a freshly initialized session
(`done = True`) and a valid action. -/
theorem step_done_unboundlocal :
    (step baseS [("move", .int 0)] stepDoneNet).netMsgs = 0 ∧
    (step baseS [("move", .int 0)] stepDoneNet).result = .error .unboundLocal :=
  ⟨rfl, rfl⟩

/-- C3 counterexample: with an empty first observation payload and
only a fraction of the 3-minute ceiling elapsed, `_peek_obs` does NOT
re-poll until data arrives: it performs exactly one peek exchange,
raises nothing, keeps the connection, and returns the zero-filled
observation — refuting "repeatedly sleeps and re-polls until data
arrives or a 3-minute ceiling elapses". -/
theorem peek_no_repoll_cex :
    (peek_obs peekS emptyPeekNet 0).polls = 1 ∧
    (peek_obs peekS emptyPeekNet 0).result = .ok [("pov", .ndarr [0])] ∧
    (peek_obs peekS emptyPeekNet 0).result ≠ .error .missionInitException ∧
    (peek_obs peekS emptyPeekNet 0).session.client_socket = some () := by
  refine ⟨rfl, rfl, ?_, rfl⟩
  intro h
  simp [peek_obs, peekS, emptyPeekNet, baseS, process_observation, povStage,
    inventoryFix, alookup, fieldLoop, MAX_WAIT] at h

/-- C3 amended: `_peek_obs` checks an empty observation payload once
(no loop): past the 3-minute ceiling it raises
`MissionInitException` and closes and nulls the connection, otherwise
it sleeps 0.1 s once and returns the processed (zero-filled)
observation; exactly one peek exchange happens either way. -/
theorem peek_empty_single_check (s : Session) (net : PeekNet) (elapsed : Nat)
    (hdone : s.done = false) (hobs : net.obs = []) :
    (peek_obs s net elapsed).polls = 1 ∧
    (MAX_WAIT < elapsed →
       (peek_obs s net elapsed).result = .error .missionInitException ∧
       (peek_obs s net elapsed).session.client_socket = none) ∧
    (elapsed ≤ MAX_WAIT →
       (peek_obs s net elapsed).result
         = process_observation { s with done := net.doneB = 1 } [] net.info) := by
  unfold peek_obs
  by_cases ht : MAX_WAIT < elapsed
  · simp [hdone, hobs, ht]
  · simp [hdone, hobs, ht]

/-- Witness for `peek_empty_single_check` at a concrete running
session with an empty payload past the ceiling. -/
theorem peek_empty_single_check_witness :
    (peek_obs peekS emptyPeekNet 200).polls = 1 ∧
    (MAX_WAIT < 200 →
       (peek_obs peekS emptyPeekNet 200).result = .error .missionInitException ∧
       (peek_obs peekS emptyPeekNet 200).session.client_socket = none) ∧
    (200 ≤ MAX_WAIT →
       (peek_obs peekS emptyPeekNet 200).result
         = process_observation { peekS with done := emptyPeekNet.doneB = 1 } [] emptyPeekNet.info) :=
  peek_empty_single_check peekS emptyPeekNet 200 rfl rfl

/-- C4: the spec says a declared non-pov field absent from the info
payload is always returned as a structurally valid zero-valued
sample, never a missing key.  For a `gym.spaces.Dict` field the code's
inner zeroing loop `for k in correction` rebinds the loop variable
`k`, so the zeroed sample is stored under the sample's LAST sub-key
instead of the declared field name: decoding with `stats` (sub-key
`score`) absent from the info yields an observation with no `stats`
key at all — the zeroed dict sits under the stray key `score`. -/
theorem obs_missing_dict_field_key_lost :
    process_observation s4 [7] .empty
      = .ok [("pov", .ndarr [7]), ("score", .dict [("score", .num 0)])] ∧
    alookup "stats" [("pov", .ndarr [7]), ("score", .dict [("score", .num 0)])] = none :=
  ⟨rfl, rfl⟩

/-- C5 counterexample: a call to the observation decoder with an
EMPTY raw byte buffer that raises: the observation space declares a
`Dict` field `flags` absent from the info payload whose sample
contains a nested mapping, and the defaulting loop's `correction[k]
*= 0` raises `TypeError` on it — refuting "never raises". -/
theorem obs_empty_pov_raises_cex :
    process_observation s5 [] .empty = .error .typeError := rfl

/-- C7: the spec says an episode template lacking the top-level
`<Mission` marker makes the build fail with `ConfigError`
(`EnvException`).  The code calls `xml.index("<Mission")`, which
raises `ValueError` when the marker is absent — the guarded
`raise EnvException` on `i == -1` is dead code (`str.index` never
returns -1; `str.find` does).  Evaluated on the template `"<Foo/>"`:
`init` raises `ValueError`, not `EnvException`. -/
theorem init_missing_marker_valueerror :
    init baseS { raw := "<Foo/>", hasTurnBased := false,
                 videoProducers := [{ width := 64, height := 64, want_depth := some "false" }] }
      [] [] none 0 0 (some 0) "u" = .error .valueError ∧
    missionMarkerCheck "<Foo/>" = .error .valueError ∧
    missionMarkerCheck "<Foo/>" ≠ .error .envException := by
  refine ⟨rfl, rfl, ?_⟩
  intro h
  rw [show missionMarkerCheck "<Foo/>" = .error .valueError from rfl] at h
  simp at h

/-- C2: the turn-resolution rule of `step` under turn-based step
options (`step_options < 2`), for a completed exchange on a running
session: a non-empty received token unconditionally replaces the held
token, with the local `turn` flag false whenever `sent != 0` and
still true when `sent == 0`; an empty received token leaves the held
token alone and makes `turn` exactly `sent == 0`. -/
theorem step_turn_resolution (s : Session) (a : List (String × ActVal)) (net : StepNet)
    (hdone : s.done = false) (hopts : s.step_options < 2)
    (hok : ((step s a net).result).isOk = true) :
    (net.turnKey ≠ "" →
       (step s a net).session.turn_key = net.turnKey ∧
       (net.sent ≠ 0 → (step s a net).turn = false) ∧
       (net.sent = 0 → (step s a net).turn = true)) ∧
    (net.turnKey = "" →
       ((step s a net).turn = true ↔ net.sent = 0) ∧
       (step s a net).session.turn_key = s.turn_key) := by
  cases hpa : process_action s.action_space a with
  | error e =>
      have hr : (step s a net).result = .error e := by simp [step, hpa]
      rw [hr] at hok
      simp [Except.isOk, Except.toBool] at hok
  | ok cmd =>
      cases hpo : process_observation { s with done := net.doneB = 1 } net.obs
          (if s.step_options = 0 ∨ s.step_options = 2 then net.info else .empty) with
      | error e =>
          have hr : (step s a net).result = .error e := by
            simp [step, hpa, hdone, hpo]
          rw [hr] at hok
          simp [Except.isOk, Except.toBool] at hok
      | ok out =>
          constructor
          · intro htk
            refine ⟨?_, ?_, ?_⟩
            · simp [step, hpa, hdone, hpo, hopts, htk]
            · intro hs; simp [step, hpa, hdone, hpo, hopts, htk, hs]
            · intro hs; simp [step, hpa, hdone, hpo, hopts, htk, hs]
          · intro htk
            constructor
            · simp [step, hpa, hdone, hpo, hopts, htk]
            · simp [step, hpa, hdone, hpo, hopts, htk]

/-- The step-reply bundle of the spec's end-to-end turn scenario:
`reward = 1`, `done = 0`, `sent = 1`, new token `"tk1"`. -/
def tkNet : StepNet :=
  { obs := [9], reward := 1, doneB := 0, sent := 1, info := .empty, turnKey := "tk1" }

/-- Witness for `step_turn_resolution`: the running session with
`step_options = 0` and the `tkNet` reply. -/
theorem step_turn_resolution_witness :
    (tkNet.turnKey ≠ "" →
       (step peekS [("move", .int 0)] tkNet).session.turn_key = tkNet.turnKey ∧
       (tkNet.sent ≠ 0 → (step peekS [("move", .int 0)] tkNet).turn = false) ∧
       (tkNet.sent = 0 → (step peekS [("move", .int 0)] tkNet).turn = true)) ∧
    (tkNet.turnKey = "" →
       ((step peekS [("move", .int 0)] tkNet).turn = true ↔ tkNet.sent = 0) ∧
       (step peekS [("move", .int 0)] tkNet).session.turn_key = peekS.turn_key) :=
  step_turn_resolution peekS [("move", .int 0)] tkNet rfl (by decide) rfl

/-- The space descriptions under which the shadowed defaulting key of
the Dict branch can never be the literal `pov`: no declared
`gym.spaces.Dict` field's sample has `pov` as its last sub-key. -/
def noPovShadow (sp : ObsSpace) : Bool :=
  sp.all fun entry =>
    match entry.2 with
    | .dictSpace sample => !((sample.map Prod.fst).getLast? == some "pov")
    | .other _ => true

/-- The defaulting loop never touches the `pov` entry of the
accumulated observation dict, provided no Dict sample's last sub-key
is `pov`. -/
theorem fieldLoop_pov_stable (sp : ObsSpace) :
    ∀ (info obsd : List (String × ObsVal)) (z : ObsVal) (o : List (String × ObsVal)),
      alookup "pov" obsd = some z → noPovShadow sp = true →
      fieldLoop info obsd sp = .ok o → alookup "pov" o = some z := by
  induction sp with
  | nil =>
      intro info obsd z o hz _ h
      simp [fieldLoop] at h
      rw [← h]
      exact hz
  | cons entry rest ih =>
      obtain ⟨k, sk⟩ := entry
      intro info obsd z o hz hwf h
      rw [noPovShadow, List.all_cons, Bool.and_eq_true] at hwf
      obtain ⟨hwfh, hwft⟩ := hwf
      by_cases hk : k = "pov"
      · rw [show fieldLoop info obsd ((k, sk) :: rest) = fieldLoop info obsd rest by
          simp [fieldLoop, hk]] at h
        exact ih info obsd z o hz hwft h
      · simp only [fieldLoop, if_neg hk] at h
        cases hlk : alookup k info with
        | some v =>
            simp only [hlk] at h
            refine ih _ _ z o ?_ hwft h
            rw [alookup_aupdate_ne _ _ _ _ (fun he => hk he.symm)]
            exact hz
        | none =>
            simp only [hlk] at h
            cases sk with
            | other sample =>
                refine ih _ _ z o ?_ hwft h
                rw [alookup_aupdate_ne _ _ _ _ (fun he => hk he.symm)]
                exact hz
            | dictSpace sample =>
                cases hza : zeroAll sample with
                | error e => simp only [hza] at h; cases h
                | ok zs =>
                    simp only [hza] at h
                    have hk'ne : ((sample.map Prod.fst).getLast?).getD k ≠ "pov" := by
                      simp only [noPovShadow] at hwfh
                      cases hgl : (sample.map Prod.fst).getLast? with
                      | none => simpa [hgl] using hk
                      | some x =>
                          rw [hgl] at hwfh
                          simp only [Option.getD_some]
                          simpa using hwfh
                    refine ih _ _ z o ?_ hwft h
                    rw [alookup_aupdate_ne _ _ _ _ (fun he => hk'ne he.symm)]
                    exact hz

/-- C5 amended: with an empty raw byte buffer the frame stage itself
never raises — it substitutes the all-zero buffer of the declared
`height * width * depth` geometry — and whenever the decoder returns
(under space descriptions whose Dict defaulting cannot clobber `pov`)
the returned observation's `pov` is that all-zero buffer.  The
decoder as a whole can still raise for space/info reasons unrelated
to the buffer (see the counterexample). -/
theorem obs_empty_pov_zero_fill (s : Session) (infoIn : InfoPayload)
    (hwf : noPovShadow s.observation_space = true) :
    povStage [] s.height s.width s.depth
      = .ok (List.replicate (s.height * s.width * s.depth) 0) ∧
    ∀ o, process_observation s [] infoIn = .ok o →
      alookup "pov" o = some (.ndarr (List.replicate (s.height * s.width * s.depth) 0)) := by
  constructor
  · simp [povStage]
  · intro o h
    unfold process_observation at h
    simp only [povStage, List.length_nil, if_pos] at h
    cases infoIn with
    | empty =>
        cases hinv : inventoryFix s.observation_space [] with
        | error e => simp only [hinv] at h; cases h
        | ok info1 =>
            simp only [hinv] at h
            exact fieldLoop_pov_stable s.observation_space info1 _ _ o (by simp [alookup]) hwf h
    | parsed l =>
        cases hinv : inventoryFix s.observation_space l with
        | error e => simp only [hinv] at h; cases h
        | ok info1 =>
            simp only [hinv] at h
            exact fieldLoop_pov_stable s.observation_space info1 _ _ o (by simp [alookup]) hwf h

/-- Witness for `obs_empty_pov_zero_fill`: the pov-only running
session decoding an empty frame. -/
theorem obs_empty_pov_zero_fill_witness :
    povStage [] peekS.height peekS.width peekS.depth
      = .ok (List.replicate (peekS.height * peekS.width * peekS.depth) 0) ∧
    alookup "pov" [("pov", .ndarr [0])]
      = some (.ndarr (List.replicate (peekS.height * peekS.width * peekS.depth) 0)) :=
  ⟨(obs_empty_pov_zero_fill peekS .empty rfl).1,
   (obs_empty_pov_zero_fill peekS .empty rfl).2 [("pov", .ndarr [0])] rfl⟩

/-- A field whose rendering fails makes the whole encode fail (the
loop propagates the first failure). -/
theorem mapM_error_of_mem (f : String × ActVal → Except PyErr String)
    (l : List (String × ActVal)) (x : String × ActVal)
    (hx : x ∈ l) (hf : ∀ b, f x ≠ .ok b) : ∃ e, l.mapM f = .error e := by
  induction l with
  | nil => cases hx
  | cons y rest ih =>
      cases hfy : f y with
      | error e => exact ⟨e, by rw [List.mapM_cons, hfy]; rfl⟩
      | ok b =>
          cases hx with
          | head => exact absurd hfy (hf b)
          | tail _ hx' =>
              obtain ⟨e, he⟩ := ih hx'
              refine ⟨e, ?_⟩
              rw [List.mapM_cons, hfy]
              simp only [he]
              rfl

/-- When every field renders, the encode is the rendered lines in
order. -/
theorem mapM_ok_of_forall₂ (f : String × ActVal → Except PyErr String)
    (l : List (String × ActVal)) (bs : List String)
    (h : List.Forall₂ (fun a b => f a = .ok b) l bs) : l.mapM f = .ok bs := by
  induction h with
  | nil => rfl
  | cons hab _ ih =>
      rw [List.mapM_cons, hab]
      simp only [ih]
      rfl

/-- C6: the action encoder fails (`assert`, the spec's
`InvalidActionError`) on a string value for a `Box` field and on a
non-member string for an `Enum` field; it accepts an in-range integer
index (translated to the value at that index) and an exact member
string for `Enum` fields; and it emits one `"{field} {value}"` line
per supplied field, newline-joined. -/
theorem process_action_spec :
    (∀ (spaces : List (String × ActKind)) (action : List (String × ActVal)) (k s' : String),
        spaces.lookup k = some .box → (k, ActVal.str s') ∈ action →
        renderField spaces k (.str s') = .error .assertionError ∧
        ∃ e, process_action spaces action = .error e) ∧
    (∀ (spaces : List (String × ActKind)) (action : List (String × ActVal))
        (k s' : String) (vs : List String),
        spaces.lookup k = some (.enum vs) → vs.contains s' = false →
        (k, ActVal.str s') ∈ action →
        renderField spaces k (.str s') = .error .assertionError ∧
        ∃ e, process_action spaces action = .error e) ∧
    (∀ (spaces : List (String × ActKind)) (k : String) (vs : List String) (i : Int),
        spaces.lookup k = some (.enum vs) → 0 ≤ i → i < (vs.length : Int) →
        renderField spaces k (.int i) = .ok (k ++ " " ++ vs.getD i.toNat "")) ∧
    (∀ (spaces : List (String × ActKind)) (k s' : String) (vs : List String),
        spaces.lookup k = some (.enum vs) → vs.contains s' = true →
        renderField spaces k (.str s') = .ok (k ++ " " ++ s')) ∧
    (∀ (spaces : List (String × ActKind)) (action : List (String × ActVal)) (ls : List String),
        List.Forall₂ (fun kv line => renderField spaces kv.1 kv.2 = .ok line) action ls →
        process_action spaces action = .ok (String.intercalate "\n" ls)) := by
  refine ⟨?_, ?_, ?_, ?_, ?_⟩
  · intro spaces action k s' hlk hmem
    have hrf : renderField spaces k (.str s') = .error .assertionError := by
      simp only [renderField, hlk]
    refine ⟨hrf, ?_⟩
    obtain ⟨e, he⟩ := mapM_error_of_mem (fun kv => renderField spaces kv.1 kv.2)
      action (k, .str s') hmem
      (by intro b hb
          have hb2 : renderField spaces k (.str s') = Except.ok b := hb
          rw [hrf] at hb2
          cases hb2)
    exact ⟨e, by unfold process_action; simp only [he]⟩
  · intro spaces action k s' vs hlk hc hmem
    have hrf : renderField spaces k (.str s') = .error .assertionError := by
      simp only [renderField, hlk]
      rw [if_neg (by rw [hc]; simp)]
    refine ⟨hrf, ?_⟩
    obtain ⟨e, he⟩ := mapM_error_of_mem (fun kv => renderField spaces kv.1 kv.2)
      action (k, .str s') hmem
      (by intro b hb
          have hb2 : renderField spaces k (.str s') = Except.ok b := hb
          rw [hrf] at hb2
          cases hb2)
    exact ⟨e, by unfold process_action; simp only [he]⟩
  · intro spaces k vs i hlk h0 hlen
    have hj : ¬ i < 0 := by omega
    simp [renderField, hlk, pyIndex, hj, h0, hlen]
  · intro spaces k s' vs hlk hc
    simp only [renderField, hlk]
    rw [if_pos hc]
  · intro spaces action ls h
    rw [process_action, mapM_ok_of_forall₂ _ _ _ h]

/-- Witness for `process_action_spec`, on the `baseS` action space
(`move` an enum over `["none", "forward"]`, `camera` a box). -/
theorem process_action_spec_witness :
    (renderField baseS.action_space "camera" (.str "x") = .error .assertionError ∧
       ∃ e, process_action baseS.action_space [("camera", ActVal.str "x")] = .error e) ∧
    (renderField baseS.action_space "move" (.str "jump") = .error .assertionError ∧
       ∃ e, process_action baseS.action_space [("move", ActVal.str "jump")] = .error e) ∧
    renderField baseS.action_space "move" (.int 1)
      = .ok ("move" ++ " " ++ (["none", "forward"].getD (Int.toNat 1) "")) ∧
    renderField baseS.action_space "move" (.str "forward") = .ok ("move" ++ " " ++ "forward") ∧
    process_action baseS.action_space [("move", .int 1), ("camera", .ndarr [1, 2])]
      = .ok (String.intercalate "\n" ["move forward", "camera 1 2"]) :=
  ⟨process_action_spec.1 baseS.action_space [("camera", .str "x")] "camera" "x" rfl (by simp),
   process_action_spec.2.1 baseS.action_space [("move", .str "jump")] "move" "jump"
     ["none", "forward"] rfl rfl (by simp),
   process_action_spec.2.2.1 baseS.action_space "move" ["none", "forward"] 1 rfl
     (by decide) (by decide),
   process_action_spec.2.2.2.1 baseS.action_space "move" "forward" ["none", "forward"] rfl rfl,
   process_action_spec.2.2.2.2 baseS.action_space [("move", .int 1), ("camera", .ndarr [1, 2])]
     ["move forward", "camera 1 2"]
     (List.Forall₂.cons rfl (List.Forall₂.cons rfl List.Forall₂.nil))⟩

/-- The status poll breaks out with success exactly when some attempt
within its fuel succeeds. -/
theorem statusPoll_found (ok : Nat → Bool) :
    ∀ (fuel i : Nat), (statusPoll ok i fuel).1 = true ↔ ∃ j, j < fuel ∧ ok (i + j) = true := by
  intro fuel
  induction fuel with
  | zero => intro i; simp [statusPoll]
  | succ n ih =>
      intro i
      by_cases h : ok i = true
      · simp only [statusPoll, h, if_true]
        exact ⟨fun _ => ⟨0, by omega, by simpa using h⟩, fun _ => trivial⟩
      · simp only [statusPoll, h, if_false, Bool.false_eq_true]
        rw [ih (i + 1)]
        constructor
        · rintro ⟨j, hj, hok⟩
          exact ⟨j + 1, by omega, by rwa [show i + (j + 1) = i + 1 + j by omega]⟩
        · rintro ⟨j, hj, hok⟩
          cases j with
          | zero => exact absurd (by simpa using hok) h
          | succ j' => exact ⟨j', by omega, by rwa [show i + 1 + j' = i + (j' + 1) by omega]⟩

/-- Base-index specialization of `statusPoll_found`. -/
theorem statusPoll_found0 (ok : Nat → Bool) :
    (statusPoll ok 0 30).1 = true ↔ ∃ j, j < 30 ∧ ok j = true := by
  simpa using statusPoll_found ok 30 0

/-- The poll never performs more attempts than its fuel. -/
theorem statusPoll_attempts (ok : Nat → Bool) :
    ∀ (fuel i : Nat), (statusPoll ok i fuel).2.1 ≤ fuel := by
  intro fuel
  induction fuel with
  | zero => intro i; simp [statusPoll]
  | succ n ih =>
      intro i
      by_cases h : ok i = true
      · simp [statusPoll, h]
      · simp only [statusPoll, h, if_false, Bool.false_eq_true]
        have := ih (i + 1)
        omega

/-- C8: `resync` polls the primary (head) endpoint and then the
secondary endpoint, at most 30 attempts each with a 10-second sleep
after every failure, and raises `EnvException` exactly when some
endpoint stays unreachable through all its attempts.  In particular
the spec's scenario holds: the primary failing on attempts 1–29 and
succeeding on the 30th while the secondary succeeds immediately makes
`resync` return without error (30 primary attempts, 290 s of primary
backoff sleep, 1 secondary attempt). -/
theorem resync_spec :
    (∀ okHead okNode, resync okHead okNode = .ok () ↔
        ((∃ i, i < 30 ∧ okHead i = true) ∧ (∃ j, j < 30 ∧ okNode j = true))) ∧
    (∀ ok : Nat → Bool, (statusPoll ok 0 30).2.1 ≤ 30) ∧
    (∀ okHead okNode, resync okHead okNode = .ok () ∨
        resync okHead okNode = .error .envException) ∧
    resync (fun i => i == 29) (fun _ => true) = .ok () ∧
    (statusPoll (fun i => i == 29) 0 30).2.1 = 30 ∧
    (statusPoll (fun i => i == 29) 0 30).2.2 = 290 ∧
    (statusPoll (fun _ => true) 0 30).2.1 = 1 := by
  refine ⟨?_, fun ok => statusPoll_attempts ok 30 0, ?_, rfl, rfl, rfl, rfl⟩
  · intro okHead okNode
    unfold resync
    by_cases h1 : (statusPoll okHead 0 30).1 = true <;>
      by_cases h2 : (statusPoll okNode 0 30).1 = true <;>
        simp [h1, h2, ← statusPoll_found0]
  · intro okHead okNode
    unfold resync
    by_cases h1 : (statusPoll okHead 0 30).1 = true <;>
      by_cases h2 : (statusPoll okNode 0 30).1 = true <;>
        simp [h1, h2]

/-- Witness for `resync_spec`: both endpoints immediately reachable. -/
theorem resync_spec_witness :
    resync (fun _ => true) (fun _ => true) = .ok () :=
  (resync_spec.1 (fun _ => true) (fun _ => true)).mpr
    ⟨⟨0, by omega, rfl⟩, ⟨0, by omega, rfl⟩⟩

/-- The first confirmed (nonzero) quit status: everything before it is
zero and it is nonzero. -/
theorem firstNonzero_spec :
    ∀ (l : List Nat) (k : Nat), firstNonzero l = some k →
      l.getD k 0 ≠ 0 ∧ ∀ i, i < k → l.getD i 1 = 0 := by
  intro l
  induction l with
  | nil => intro k h; simp [firstNonzero] at h
  | cons r rest ih =>
      intro k h
      by_cases hr : r ≠ 0
      · rw [show firstNonzero (r :: rest) = some 0 by simp [firstNonzero, hr]] at h
        injection h with h
        subst h
        exact ⟨by simpa using hr, by omega⟩
      · push_neg at hr
        rw [show firstNonzero (r :: rest) = (firstNonzero rest).map (· + 1) by
          simp [firstNonzero, hr]] at h
        rw [Option.map_eq_some'] at h
        obtain ⟨k', hk', rfl⟩ := h
        obtain ⟨h1, h2⟩ := ih k' hk'
        refine ⟨by simpa using h1, ?_⟩
        intro i hi
        cases i with
        | zero => simpa using hr
        | succ i' => simpa using h2 i' (by omega)

/-- A running (`done = False`) session whose periodic resync is due on
the next reset (`resync_period = 1`, so `(resets + 1) % resync_period
= 0`). -/
def resyncDueS : Session := { peekS with resync_period := 1 }

/-- C9 counterexample: a `reset` called while `done` is false with the
periodic resync due runs `exit_resync`, which nulls the socket
(`self.client_socket = None`), and the quit loop's very first
`send_message(self.client_socket, ...)` then crashes with
`AttributeError` — no quit-polling until confirmation, and no event
sequence at all — refuting "whenever reset is called while done is
false, it repeatedly issues quit requests ... until the backend
confirms termination, and only then begins the handshake". -/
theorem reset_resync_due_crash_cex :
    reset resyncDueS [0, 5] = .errored .attributeError ∧
    ∀ l, reset resyncDueS [0, 5] ≠ .events l := by
  refine ⟨rfl, ?_⟩
  intro l h
  rw [show reset resyncDueS [0, 5] = .errored .attributeError from rfl] at h
  cases h

/-- C9 amended: a `reset` called while `done` is false, when the
periodic exit-resync is not due this episode and the socket is live,
issues `<Quit/>` exchanges until the backend's first nonzero 4-byte
status — every earlier status being zero — and only then performs the
mission-init handshake; when no nonzero status ever arrives the
quit-polling never ends, so no handshake is started at all.  But when
the periodic exit-resync is due, or the socket was already discarded
(e.g. by a peek timeout), the quit loop crashes with `AttributeError`
on the null socket instead of quit-polling. -/
theorem reset_drains_before_handshake :
    (∀ (s : Session) (replies : List Nat) (k : Nat),
        s.has_init = true → s.done = false → s.client_socket = some () →
        (s.resync_period = 0 ∨ (s.resets + 1) % s.resync_period ≠ 0) →
        firstNonzero replies = some k →
        reset s replies = .events (List.replicate (k + 1) .quit ++ [.handshake]) ∧
        replies.getD k 0 ≠ 0 ∧ ∀ i, i < k → replies.getD i 1 = 0) ∧
    (∀ (s : Session) (replies : List Nat),
        s.has_init = true → s.done = false → s.client_socket = some () →
        (s.resync_period = 0 ∨ (s.resets + 1) % s.resync_period ≠ 0) →
        firstNonzero replies = none →
        reset s replies = .diverges) ∧
    (∀ (s : Session) (replies : List Nat),
        s.has_init = true → s.done = false →
        0 < s.resync_period → (s.resets + 1) % s.resync_period = 0 →
        reset s replies = .errored .attributeError) ∧
    (∀ (s : Session) (replies : List Nat),
        s.has_init = true → s.done = false → s.client_socket = none →
        (s.resync_period = 0 ∨ (s.resets + 1) % s.resync_period ≠ 0) →
        reset s replies = .errored .attributeError) := by
  have hnd : ∀ (s : Session), (s.resync_period = 0 ∨ (s.resets + 1) % s.resync_period ≠ 0) →
      ¬(0 < s.resync_period ∧ (s.resets + 1) % s.resync_period = 0) := by
    rintro s (h | h) ⟨h1, h2⟩ <;> omega
  refine ⟨?_, ?_, ?_, ?_⟩
  · intro s replies k hinit hdone hsock hre hk
    obtain ⟨h1, h2⟩ := firstNonzero_spec replies k hk
    refine ⟨?_, h1, h2⟩
    have hmd := hnd s hre
    unfold reset
    simp [hinit, hdone, hsock, hk, hmd]
  · intro s replies hinit hdone hsock hre hk
    have hmd := hnd s hre
    unfold reset
    simp [hinit, hdone, hsock, hk, hmd]
  · intro s replies hinit hdone hp hm
    unfold reset
    simp [hinit, hdone, hp, hm]
  · intro s replies hinit hdone hsock hre
    have hmd := hnd s hre
    unfold reset
    simp [hinit, hdone, hsock, hmd]

/-- Witness for `reset_drains_before_handshake`: a running session
whose backend confirms the quit on the third attempt, and the same
session with the resync period due crashing on the null socket. -/
theorem reset_drains_before_handshake_witness :
    (reset peekS [0, 0, 5] = .events (List.replicate 3 .quit ++ [.handshake]) ∧
       [0, 0, 5].getD 2 0 ≠ 0 ∧ ∀ i, i < 2 → [0, 0, 5].getD i 1 = 0) ∧
    reset resyncDueS [0, 0, 5] = .errored .attributeError :=
  ⟨reset_drains_before_handshake.1 peekS [0, 0, 5] 2 rfl rfl rfl (Or.inl rfl) rfl,
   reset_drains_before_handshake.2.2.1 resyncDueS [0, 0, 5] rfl rfl (by decide) rfl⟩

/-- C10: whenever `init` completes it yields a session with role 0,
a single agent, an empty turn token and `done = True`, whatever the
arguments and template; and a (marker-bearing) template declaring a
`TurnBasedCommands` element makes `init` raise `NotImplementedError`
instead. -/
theorem init_session_invariants :
    (∀ (s : Session) (tmpl : MissionTemplate) (os : ObsSpace)
        (acts : List (String × ActKind)) (eu : Option String) (ep ra : Nat)
        (so : Option Int) (gu : String) (s' : Session),
        init s tmpl os acts eu ep ra so gu = .ok s' →
        s'.role = 0 ∧ s'.agent_count = 1 ∧ s'.turn_key = "" ∧ s'.done = true) ∧
    (∀ (s : Session) (tmpl : MissionTemplate) (os : ObsSpace)
        (acts : List (String × ActKind)) (eu : Option String) (ep ra : Nat)
        (so : Option Int) (gu : String),
        (missionMarkerCheck tmpl.raw).isOk = true → tmpl.hasTurnBased = true →
        init s tmpl os acts eu ep ra so gu = .error .notImplementedError) := by
  constructor
  · intro s tmpl os acts eu ep ra so gu s' h
    unfold init at h
    cases hmc : missionMarkerCheck tmpl.raw with
    | error e => simp only [hmc] at h; cases h
    | ok xml =>
        simp only [hmc] at h
        by_cases htb : tmpl.hasTurnBased = true
        · rw [if_pos htb] at h; cases h
        · rw [if_neg htb] at h
          by_cases hvp : tmpl.videoProducers.length = 1
          · rw [dif_pos hvp] at h
            cases hwd : (tmpl.videoProducers.get ⟨0, by simp [hvp]⟩).want_depth with
            | none => simp only [hwd] at h; cases h
            | some wd =>
                simp only [hwd] at h
                injection h with h
                rw [← h]
                exact ⟨rfl, rfl, rfl, rfl⟩
          · rw [dif_neg hvp] at h; cases h
  · intro s tmpl os acts eu ep ra so gu hmc htb
    cases hmc' : missionMarkerCheck tmpl.raw with
    | error e => rw [hmc'] at hmc; simp [Except.isOk, Except.toBool] at hmc
    | ok xml => unfold init; simp only [hmc', htb, if_true, if_pos]

/-- A well-formed template: marker at the start, no turn-based
commands, one 64×64 video producer without depth. -/
def tmpl10 : MissionTemplate :=
  { raw := "<Mission>...", hasTurnBased := false,
    videoProducers := [{ width := 64, height := 64, want_depth := some "false" }] }

/-- The same template with a `TurnBasedCommands` element declared. -/
def tmplTB : MissionTemplate := { tmpl10 with hasTurnBased := true }

/-- The session `init` produces from `baseS` and `tmpl10`. -/
def initResult10 : Session :=
  { role := 0, agent_count := 1, exp_uid := "u", resets := 0, resync_period := 0,
    turn_key := "", done := true, step_options := 0, width := 64, height := 64, depth := 3,
    client_socket := some (), has_init := true,
    observation_space := [], action_space := [] }

/-- Witness for `init_session_invariants`: a concrete successful
`init` and a concrete turn-based rejection. -/
theorem init_session_invariants_witness :
    (initResult10.role = 0 ∧ initResult10.agent_count = 1 ∧
       initResult10.turn_key = "" ∧ initResult10.done = true) ∧
    init baseS tmplTB [] [] none 0 0 (some 0) "u" = .error .notImplementedError :=
  ⟨init_session_invariants.1 baseS tmpl10 [] [] none 0 0 (some 0) "u" initResult10 (by rfl),
   init_session_invariants.2 baseS tmplTB [] [] none 0 0 (some 0) "u" (by rfl) rfl⟩

end MineRL
